import Mathlib

/-!
A shallow embedding of the wire codec and client layer of `rust-pocket`
(`src/lib.rs`), a Rust client for the Pocket reading-list service built on
`rustc_serialize::json`.

The embedding models:

* JSON values as produced by `rustc_serialize::json::from_str` (`Json.obj`
  carries the `BTreeMap<String, Json>` contents as an association list whose
  keys are in ascending order; the `F64` float variant is omitted, as no
  decoding path of this crate relies on it);
* the `rustc_serialize::json::Decoder`, a stack machine over `Json` values
  whose read operations mutate the stack even on failure, and which panics
  (`unwrap` on an empty stack, `unreachable!` in enum decodes) on some inputs —
  panics are modelled as a distinguished `DRes.panic` outcome;
* the `rustc_serialize::json::Encoder`, which appends text to an output
  string (with panics from `Option::unwrap` on missing credentials modelled
  as `ERes.panic`);
* the typed records (`PocketItem`, `PocketAddedItem`, `ItemImage`,
  `ItemVideo`, enums, request/response shapes) with their exact `Decodable` /
  `Encodable` implementations from the source, and
* the client facade `Pocket` (consumer key, access token, pending code) with
  its operations, taking the transport result (headers + parsed body) as an
  explicit argument.
-/

/-- A JSON value as represented by `rustc_serialize::json::Json`.
Objects are `BTreeMap<String, Json>`: the association list is kept in the
map's ascending key order and has unique keys. The `F64` variant of the Rust
type is omitted (floating point; unused by every decode path modelled here). -/
inductive Json where
  | null
  | boolean (b : Bool)
  | i64 (n : Int)
  | u64 (n : Nat)
  | str (s : String)
  | arr (xs : List Json)
  | obj (kvs : List (String × Json))

/-- One hexadecimal digit, lowercase, as in Rust's `{:04x}` formatting. -/
def hexDigit (n : Nat) : Char :=
  if n < 10 then Char.ofNat (48 + n) else Char.ofNat (87 + n)

/-- Four lowercase hex digits, as in the `\uXXXX` escapes of
`rustc_serialize::json::escape_str`. -/
def hex4 (n : Nat) : String :=
  String.mk [hexDigit (n / 4096 % 16), hexDigit (n / 256 % 16),
             hexDigit (n / 16 % 16), hexDigit (n % 16)]

/-- Escaping of a single character inside a JSON string literal, following
`rustc_serialize::json::escape_str`'s table. -/
def escapeChar (c : Char) : String :=
  if c = '"' then "\\\""
  else if c = '\\' then "\\\\"
  else if c = Char.ofNat 8 then "\\b"
  else if c = Char.ofNat 9 then "\\t"
  else if c = Char.ofNat 10 then "\\n"
  else if c = Char.ofNat 12 then "\\f"
  else if c = Char.ofNat 13 then "\\r"
  else if c.toNat < 32 ∨ c.toNat = 127 then "\\u" ++ hex4 c.toNat
  else String.singleton c

/-- A JSON string literal: quoted and escaped, as `escape_str` emits it. -/
def escapeStr (s : String) : String :=
  "\"" ++ String.join (s.data.map escapeChar) ++ "\""

mutual

/-- Compact rendering of a `Json` value, as `rustc_serialize`'s `Display`
(`format!("{}", json)`) produces for decoder error messages. -/
def Json.render : Json → String
  | .null => "null"
  | .boolean b => cond b "true" "false"
  | .i64 n => toString n
  | .u64 n => toString n
  | .str s => escapeStr s
  | .arr xs => "[" ++ Json.renderArr xs ++ "]"
  | .obj kvs => "\x7b" ++ Json.renderObj kvs ++ "\x7d"

/-- Comma-separated rendering of array elements. -/
def Json.renderArr : List Json → String
  | [] => ""
  | [x] => Json.render x
  | x :: y :: xs => Json.render x ++ "," ++ Json.renderArr (y :: xs)

/-- Comma-separated rendering of object entries. -/
def Json.renderObj : List (String × Json) → String
  | [] => ""
  | [(k, v)] => escapeStr k ++ ":" ++ Json.render v
  | (k, v) :: kv :: kvs => escapeStr k ++ ":" ++ Json.render v ++ "," ++ Json.renderObj (kv :: kvs)

end

/-- Numeric value of an ASCII digit character. -/
def digitVal (c : Char) : Nat := c.toNat - 48

/-- The digit-accumulation loop of Rust's `from_str_radix` at radix 10 for an
unsigned type with maximum value `maxv`: consume digits left to right with a
checked multiply-and-add; a non-digit or an overflow aborts with `none`. -/
def rustParseLoop (maxv : Nat) : List Char → Nat → Option Nat
  | [], acc => some acc
  | c :: rest, acc =>
    if c.isDigit then
      if acc * 10 + digitVal c ≤ maxv then rustParseLoop maxv rest (acc * 10 + digitVal c)
      else none
    else none

/-- Rust's `str::parse` (`from_str_radix`, radix 10) for an unsigned integer
type with maximum value `maxv`: an optional leading `+` (but not `-`, which is
not stripped for unsigned types), then one or more ASCII digits, with overflow
checked against `maxv`. This is the conversion `rustc_serialize`'s decoder
applies when a numeric read meets a JSON string. -/
def rustFromStr (maxv : Nat) (s : String) : Option Nat :=
  match s.data with
  | [] => none
  | c :: rest =>
    if c = '+' then
      if rest.isEmpty then none else rustParseLoop maxv rest 0
    else rustParseLoop maxv (c :: rest) 0

/-- `rustc_serialize::json::DecoderError` (the `Decode` error class). -/
inductive DecoderError where
  | parseError (msg : String)
  | expectedError (expected : String) (found : String)
  | missingFieldError (name : String)
  | unknownVariantError (name : String)
  | applicationError (msg : String)

/-- Decoder stack: `rustc_serialize::json::Decoder` holds a `Vec<Json>` used
as a stack; the head of the list is the top of the stack. -/
abbrev Stack := List Json

/-- Outcome of running a decoder computation: a value or a decoder error —
each together with the stack as the computation left it, since the Rust
decoder mutates its stack in place even on the error path — or a panic
(`unwrap` on an empty stack, or `unreachable!`). -/
inductive DRes (α : Type) where
  | ok (a : α) (st : Stack)
  | err (e : DecoderError) (st : Stack)
  | panic

/-- A decoder computation over the mutable stack. -/
def DecodeM (α : Type) : Type := Stack → DRes α

/-- Sequencing of decoder computations: the error and panic outcomes of the
first computation propagate (with the stack it left behind). -/
def DecodeM.bind (m : DecodeM α) (f : α → DecodeM β) : DecodeM β := fun st =>
  match m st with
  | .ok a st' => f a st'
  | .err e st' => .err e st'
  | .panic => .panic

instance : Monad DecodeM where
  pure a := fun st => .ok a st
  bind := DecodeM.bind

/-- Fail with a decoder error, leaving the stack as it is. -/
def derr (e : DecoderError) : DecodeM α := fun st => .err e st

/-- `Decoder::pop`: `self.stack.pop().unwrap()` — panics on an empty stack. -/
def dpop : DecodeM Json := fun st =>
  match st with
  | [] => .panic
  | j :: rest => .ok j rest

/-- The string branch of the numeric `read_*` primitives: per `#12967` in
`rustc_serialize`, a JSON string is run through `str::parse` for the target
type, failing with `ExpectedError("Number", s)` when the parse fails. -/
def readPrimStr (maxv : Nat) (s : String) : DecodeM Nat :=
  match rustFromStr maxv s with
  | some n => pure n
  | none => derr (.expectedError "Number" s)

/-- The numeric `read_*` primitives (`read_u8`/`read_u16`/`read_u64`/
`read_usize`), instantiated by the type's maximum value `maxv`. Following
`rustc_serialize`'s `read_primitive!` macro: an in-range `U64`/`I64` succeeds
(out of range is an `ExpectedError("Number", ..)` from the failed cast), a
JSON string goes through `str::parse` for the target type, and anything
else is an `ExpectedError("Number", ..)`. -/
def readPrimNat (maxv : Nat) : DecodeM Nat := do
  let j ← dpop
  match j with
  | .u64 n => if n ≤ maxv then pure n else derr (.expectedError "Number" (toString n))
  | .i64 n =>
    if 0 ≤ n ∧ n ≤ (maxv : Int) then pure n.toNat
    else derr (.expectedError "Number" (toString n))
  | .str s => readPrimStr maxv s
  | other => derr (.expectedError "Number" other.render)

/-- `Decoder::read_u8`. -/
def readU8 : DecodeM Nat := readPrimNat 255

/-- `Decoder::read_u16`. -/
def readU16 : DecodeM Nat := readPrimNat 65535

/-- `Decoder::read_u64`. -/
def readU64 : DecodeM Nat := readPrimNat (2 ^ 64 - 1)

/-- `Decoder::read_usize` (64-bit `usize`). -/
def readUsize : DecodeM Nat := readPrimNat (2 ^ 64 - 1)

/-- `Decoder::read_str`: expects a JSON string. -/
def readStr : DecodeM String := do
  let j ← dpop
  match j with
  | .str s => pure s
  | other => derr (.expectedError "String" other.render)

/-- `Decoder::read_bool`: expects a JSON boolean. -/
def readBool : DecodeM Bool := do
  let j ← dpop
  match j with
  | .boolean b => pure b
  | other => derr (.expectedError "Boolean" other.render)

/-- `Decoder::read_option`: pops the top value; `Null` runs the continuation
with `false`, anything else is pushed back and the continuation runs with
`true`. -/
def readOption (f : Bool → DecodeM α) : DecodeM α := do
  let j ← dpop
  match j with
  | .null => f false
  | v => fun st => f true (v :: st)

/-- `Decoder::read_struct`: runs the body, then pops the (by then emptied)
object off the stack; on a body error nothing further is popped. -/
def readStruct (f : DecodeM α) : DecodeM α := do
  let a ← f
  let _ ← dpop
  pure a

/-- `BTreeMap::remove`: take out the entry with the given key, preserving the
order of the rest. -/
def removeKey : List (String × Json) → String → Option Json × List (String × Json)
  | [], _ => (none, [])
  | (k, v) :: rest, name =>
    if k = name then (some v, rest)
    else
      let (r, rest') := removeKey rest name
      (r, (k, v) :: rest')

/-- `Decoder::read_struct_field`: pop the object, remove the named field and
push its value (or `Null` when absent, in which case a failing body is turned
into `MissingFieldError`), run the body, and push the reduced object back on
success. On a body failure the object is not restored (the Rust code returns
early, dropping it). The `idx` argument is ignored, as in the source. -/
def readStructField (name : String) (_idx : Nat) (f : DecodeM α) : DecodeM α := fun st =>
  match st with
  | [] => .panic
  | .obj kvs :: rest =>
    match removeKey kvs name with
    | (none, kvs') =>
      match f (Json.null :: rest) with
      | .ok x st' => .ok x (Json.obj kvs' :: st')
      | .err _ st' => .err (.missingFieldError name) st'
      | .panic => .panic
    | (some v, kvs') =>
      match f (v :: rest) with
      | .ok x st' => .ok x (Json.obj kvs' :: st')
      | .err e st' => .err e st'
      | .panic => .panic
  | other :: rest => .err (.expectedError "Object" other.render) rest

/-- `Decoder::read_seq`: expects a JSON array, pushes its elements in reverse
(so the first element is on top), and runs the body with the length. -/
def readSeq (f : Nat → DecodeM α) : DecodeM α := fun st =>
  match st with
  | [] => .panic
  | .arr xs :: rest => f xs.length (xs ++ rest)
  | other :: rest => .err (.expectedError "Array" other.render) rest

/-- `Decoder::read_map`: expects a JSON object and pushes, for each entry in
the `BTreeMap`'s ascending key order, the value then the key — so the key of
the *last* entry ends up on top and entries are consumed in descending key
order. Runs the body with the entry count. -/
def readMap (f : Nat → DecodeM α) : DecodeM α := fun st =>
  match st with
  | [] => .panic
  | .obj kvs :: rest =>
    f kvs.length (kvs.foldl (fun acc kv => Json.str kv.1 :: kv.2 :: acc) rest)
  | other :: rest => .err (.expectedError "Object" other.render) rest

/-- The `(0..s).flat_map(|i| elt).collect()` pattern used by the hand-written
decoders in the source: run the element decoder `s` times, *skipping* any
element whose decode fails (a `Result` yields no items into `flat_map`) while
keeping every stack mutation the failed run made. Never fails itself; a panic
propagates. -/
def flatMapCollect (elt : DecodeM α) : Nat → DecodeM (List α)
  | 0 => pure []
  | n + 1 => fun st =>
    match elt st with
    | .ok a st' =>
      match flatMapCollect elt n st' with
      | .ok as st'' => .ok (a :: as) st''
      | .err e st'' => .err e st''
      | .panic => .panic
    | .err _ st' => flatMapCollect elt n st'
    | .panic => .panic

/-- The element loop of the library `Decodable` impl for `Vec<T>`: run the
element decoder `s` times, propagating the first failure (`try!`). -/
def vecCollect (elt : DecodeM α) : Nat → DecodeM (List α)
  | 0 => pure []
  | n + 1 => do
    let a ← elt
    let as ← vecCollect elt n
    pure (a :: as)

/-- `time::Timespec`. -/
structure Timespec where
  sec : Int
  nsec : Int

/-- Rust's `v as i64` on a `u64` value: two's-complement wrap into the signed
64-bit range. -/
def u64AsI64 (v : Nat) : Int :=
  if v < 2 ^ 63 then (v : Int) else (v : Int) - 2 ^ 64

/-- The `|d| d.read_u64().map(|v| Timespec::new(v as i64, 0))` field reader
used for every timestamp field. -/
def readTimespecU64 : DecodeM Timespec := do
  let v ← readU64
  pure ⟨u64AsI64 v, 0⟩

/-- The `|d| d.read_u8().map(|v| v != 0)` field reader used for every
boolean-coded wire field of `PocketItem` and `PocketAddedItem`. -/
def readBoolU8 : DecodeM Bool := do
  let v ← readU8
  pure (v != 0)

/-- The `Decodable` impl for `Option<String>` derived fields:
`read_option` then `read_str` when present. -/
def readOptionStr : DecodeM (Option String) :=
  readOption fun b =>
    if b then do
      let s ← readStr
      pure (some s)
    else pure none

/-- `PocketItemHas` (tri-state flag `No`/`Yes`/`Is`, wire values 0/1/2). -/
inductive PocketItemHas where
  | no
  | yes
  | is_

/-- `PocketItemHas::decode`: `read_u8` then match on 0/1/2 with
`_ => unreachable!()` — any other in-range byte value panics. -/
def PocketItemHas.decode : DecodeM PocketItemHas := fun st =>
  match readU8 st with
  | .ok v st' =>
    match v with
    | 0 => .ok .no st'
    | 1 => .ok .yes st'
    | 2 => .ok .is_ st'
    | _ => .panic
  | .err e st' => .err e st'
  | .panic => .panic

/-- `PocketItemStatus` (`Normal`/`Archived`/`Deleted`, wire values 0/1/2). -/
inductive PocketItemStatus where
  | normal
  | archived
  | deleted

/-- `PocketItemStatus::decode`: `read_u8` then match on 0/1/2 with
`_ => unreachable!()` — any other in-range byte value panics. -/
def PocketItemStatus.decode : DecodeM PocketItemStatus := fun st =>
  match readU8 st with
  | .ok v st' =>
    match v with
    | 0 => .ok .normal st'
    | 1 => .ok .archived st'
    | 2 => .ok .deleted st'
    | _ => .panic
  | .err e st' => .err e st'
  | .panic => .panic

/-- `ItemImage`. -/
structure ItemImage where
  item_id : Nat
  image_id : Nat
  src : String
  width : Nat
  height : Nat
  caption : String
  credit : String

/-- `ItemImage`'s derived `RustcDecodable` impl: a `read_struct` reading each
field by name in declaration order with the field type's decoder. -/
def ItemImage.decode : DecodeM ItemImage :=
  readStruct do
    let item_id ← readStructField "item_id" 0 readU64
    let image_id ← readStructField "image_id" 1 readU64
    let src ← readStructField "src" 2 readStr
    let width ← readStructField "width" 3 readU16
    let height ← readStructField "height" 4 readU16
    let caption ← readStructField "caption" 5 readStr
    let credit ← readStructField "credit" 6 readStr
    pure { item_id, image_id, src, width, height, caption, credit }

/-- `ItemVideo`. -/
structure ItemVideo where
  item_id : Nat
  video_id : Nat
  src : String
  width : Nat
  height : Nat
  length : Option Nat
  vid : String
  vtype : Nat

/-- `ItemVideo::decode` (hand-written `Decodable` impl in the source). -/
def ItemVideo.decode : DecodeM ItemVideo :=
  readStruct do
    let item_id ← readStructField "item_id" 0 readU64
    let video_id ← readStructField "video_id" 1 readU64
    let src ← readStructField "src" 2 readStr
    let width ← readStructField "width" 3 readU16
    let height ← readStructField "height" 4 readU16
    let length ← readStructField "length" 5 (readOption fun b =>
      if b then do
        let v ← readUsize
        pure (some v)
      else pure none)
    let vid ← readStructField "vid" 6 readStr
    let vtype ← readStructField "type" 7 readU16
    pure { item_id, video_id, src, width, height, length, vid, vtype }

/-- `PocketAddedItem`. -/
structure PocketAddedItem where
  item_id : Nat
  extended_item_id : Nat
  given_url : String
  normal_url : String
  content_length : Nat
  word_count : Nat
  encoding : String
  mime_type : String
  lang : String
  title : String
  excerpt : String
  date_published : String
  date_resolved : String
  resolved_id : Nat
  resolved_url : String
  resolved_normal_url : String
  login_required : Bool
  response_code : Nat
  used_fallback : Bool
  domain_id : Nat
  origin_domain_id : Nat
  innerdomain_redirect : Bool
  is_index : Bool
  is_article : Bool
  has_image : PocketItemHas
  has_video : PocketItemHas
  videos : List ItemVideo
  images : List ItemImage

/-- The collection-field reader of `PocketAddedItem::decode`:
`read_seq(|d, s| Ok((0..s).flat_map(|i| d.read_seq_elt(i, decode)).collect()))`
— accepts only a JSON array, and skips elements whose decode fails. -/
def readSeqFlatMap (elt : DecodeM α) : DecodeM (List α) :=
  readSeq fun s => flatMapCollect elt s

/-- `PocketAddedItem::decode` (hand-written `Decodable` impl in the source). -/
def PocketAddedItem.decode : DecodeM PocketAddedItem :=
  readStruct do
    let item_id ← readStructField "item_id" 0 readU64
    let extended_item_id ← readStructField "extended_item_id" 1 readU64
    let given_url ← readStructField "given_url" 2 readStr
    let normal_url ← readStructField "normal_url" 3 readStr
    let content_length ← readStructField "content_length" 4 readUsize
    let word_count ← readStructField "word_count" 5 readUsize
    let encoding ← readStructField "encoding" 6 readStr
    let mime_type ← readStructField "mime_type" 7 readStr
    let lang ← readStructField "lang" 8 readStr
    let title ← readStructField "title" 9 readStr
    let excerpt ← readStructField "excerpt" 10 readStr
    let date_published ← readStructField "date_published" 11 readStr
    let date_resolved ← readStructField "date_resolved" 12 readStr
    let resolved_id ← readStructField "resolved_id" 13 readU64
    let resolved_url ← readStructField "resolved_url" 14 readStr
    let resolved_normal_url ← readStructField "resolved_normal_url" 15 readStr
    let login_required ← readStructField "login_required" 16 readBoolU8
    let response_code ← readStructField "response_code" 17 readU16
    let used_fallback ← readStructField "used_fallback" 18 readBoolU8
    let domain_id ← readStructField "domain_id" 19 readU64
    let origin_domain_id ← readStructField "origin_domain_id" 20 readU64
    let innerdomain_redirect ← readStructField "innerdomain_redirect" 21 readBoolU8
    let is_index ← readStructField "is_index" 22 readBoolU8
    let is_article ← readStructField "is_article" 23 readBoolU8
    let has_image ← readStructField "has_image" 24 PocketItemHas.decode
    let has_video ← readStructField "has_video" 25 PocketItemHas.decode
    let videos ← readStructField "videos" 26 (readSeqFlatMap ItemVideo.decode)
    let images ← readStructField "images" 27 (readSeqFlatMap ItemImage.decode)
    pure { item_id, extended_item_id, given_url, normal_url, content_length,
           word_count, encoding, mime_type, lang, title, excerpt,
           date_published, date_resolved, resolved_id, resolved_url,
           resolved_normal_url, login_required, response_code, used_fallback,
           domain_id, origin_domain_id, innerdomain_redirect, is_index,
           is_article, has_image, has_video, videos, images }

/-- `PocketAddResponse` (derived `RustcDecodable`). -/
structure PocketAddResponse where
  item : PocketAddedItem
  status : Nat

/-- `PocketAddResponse`'s derived decode: field `item`, then field `status`. -/
def PocketAddResponse.decode : DecodeM PocketAddResponse :=
  readStruct do
    let item ← readStructField "item" 0 PocketAddedItem.decode
    let status ← readStructField "status" 1 readU16
    pure { item, status }

/-- `PocketItem`. -/
structure PocketItem where
  item_id : Nat
  given_url : String
  given_title : String
  word_count : Nat
  excerpt : String
  time_added : Timespec
  time_read : Timespec
  time_updated : Timespec
  time_favorited : Timespec
  favorite : Bool
  is_index : Bool
  is_article : Bool
  has_image : PocketItemHas
  has_video : PocketItemHas
  resolved_id : Nat
  resolved_title : String
  resolved_url : String
  sort_id : Nat
  status : PocketItemStatus
  images : Option (List ItemImage)
  videos : Option (List ItemVideo)

/-- The `videos` field reader of `PocketItem::decode`: `read_option`, then
`read_map(|d, s| Ok((0..s).flat_map(|i| d.read_map_elt_val(i, decode)).collect()))`
— note that it never calls `read_map_elt_key`, so successive iterations pop
keys and values alike off the stack and try to decode each as an element,
skipping failures. -/
def PocketItem.readVideos : DecodeM (Option (List ItemVideo)) :=
  readOption fun b =>
    if b then do
      let vs ← readMap fun s => flatMapCollect ItemVideo.decode s
      pure (some vs)
    else pure none

/-- The `images` field reader of `PocketItem::decode` (same shape as
`PocketItem.readVideos`). -/
def PocketItem.readImages : DecodeM (Option (List ItemImage)) :=
  readOption fun b =>
    if b then do
      let vs ← readMap fun s => flatMapCollect ItemImage.decode s
      pure (some vs)
    else pure none

/-- `PocketItem::decode` (hand-written `Decodable` impl in the source). -/
def PocketItem.decode : DecodeM PocketItem :=
  readStruct do
    let item_id ← readStructField "item_id" 0 readU64
    let given_url ← readStructField "given_url" 1 readStr
    let given_title ← readStructField "given_title" 2 readStr
    let word_count ← readStructField "word_count" 3 readUsize
    let excerpt ← readStructField "excerpt" 4 readStr
    let time_added ← readStructField "time_added" 5 readTimespecU64
    let time_read ← readStructField "time_read" 6 readTimespecU64
    let time_updated ← readStructField "time_updated" 7 readTimespecU64
    let time_favorited ← readStructField "time_favorited" 8 readTimespecU64
    let favorite ← readStructField "favorite" 9 readBoolU8
    let is_index ← readStructField "is_index" 10 readBoolU8
    let is_article ← readStructField "is_article" 11 readBoolU8
    let has_image ← readStructField "has_image" 12 PocketItemHas.decode
    let has_video ← readStructField "has_video" 13 PocketItemHas.decode
    let resolved_id ← readStructField "resolved_id" 14 readU64
    let resolved_title ← readStructField "resolved_title" 15 readStr
    let resolved_url ← readStructField "resolved_url" 16 readStr
    let sort_id ← readStructField "sort_id" 17 readUsize
    let status ← readStructField "status" 18 PocketItemStatus.decode
    let videos ← readStructField "videos" 19 PocketItem.readVideos
    let images ← readStructField "images" 20 PocketItem.readImages
    pure { item_id, given_url, given_title, word_count, excerpt, time_added,
           time_read, time_updated, time_favorited, favorite, is_index,
           is_article, has_image, has_video, resolved_id, resolved_title,
           resolved_url, sort_id, status, images, videos }

/-- `PocketGetResponse`. -/
structure PocketGetResponse where
  list : List PocketItem
  status : Nat
  complete : Bool
  error : Option String
  since : Timespec

/-- The `list` field reader of `PocketGetResponse::decode`:
`read_map(|d, s| Ok((0..s).flat_map(|i| read_map_elt_key(read_str)
.and_then(|_| read_map_elt_val(decode))).collect()))` — reads each key as a
string, decodes each value as a `PocketItem`, and skips entries whose decode
fails. -/
def PocketGetResponse.readList : DecodeM (List PocketItem) :=
  readMap fun s =>
    flatMapCollect (do
      let _ ← readStr
      PocketItem.decode) s

/-- `PocketGetResponse::decode` (hand-written `Decodable` impl). -/
def PocketGetResponse.decode : DecodeM PocketGetResponse :=
  readStruct do
    let list ← readStructField "list" 0 PocketGetResponse.readList
    let status ← readStructField "status" 1 readU16
    let complete ← readStructField "complete" 2 readBoolU8
    let error ← readStructField "error" 3 readOptionStr
    let since ← readStructField "since" 4 readTimespecU64
    pure { list, status, complete, error, since }

/-- `PocketSendResponse` (derived `RustcDecodable`): a status and the
per-action boolean results. -/
structure PocketSendResponse where
  status : Nat
  action_results : List Bool

/-- `PocketSendResponse`'s derived decode: field `status` (`read_u16`), then
field `action_results` (the library `Vec<bool>` decode: `read_seq` with a
`try!` loop of `read_bool`). No relation to any submitted action count. -/
def PocketSendResponse.decode : DecodeM PocketSendResponse :=
  readStruct do
    let status ← readStructField "status" 0 readU16
    let action_results ← readStructField "action_results" 1
      (readSeq fun s => vecCollect readBool s)
    pure { status, action_results }

/-- `PocketOAuthResponse` (derived `RustcDecodable`). -/
structure PocketOAuthResponse where
  code : String
  state : Option String

/-- `PocketOAuthResponse`'s derived decode. -/
def PocketOAuthResponse.decode : DecodeM PocketOAuthResponse :=
  readStruct do
    let code ← readStructField "code" 0 readStr
    let state ← readStructField "state" 1 readOptionStr
    pure { code, state }

/-- `PocketAuthorizeResponse` (derived `RustcDecodable`). -/
structure PocketAuthorizeResponse where
  access_token : String
  username : String

/-- `PocketAuthorizeResponse`'s derived decode. -/
def PocketAuthorizeResponse.decode : DecodeM PocketAuthorizeResponse :=
  readStruct do
    let access_token ← readStructField "access_token" 0 readStr
    let username ← readStructField "username" 1 readStr
    pure { access_token, username }

/-- Outcome of running an encoder computation: the accumulated output string,
or a panic (from `Option::unwrap` on a missing credential inside an encode
closure). The `json::EncoderError` paths are unreachable for the encodes
modelled here (writing to a `String` cannot fail), so no error case arises. -/
inductive ERes where
  | ok (out : String)
  | panic

/-- An encoder computation: `rustc_serialize::json::Encoder` appends text to
the borrowed output string. -/
def EncodeM : Type := String → ERes

/-- Sequencing of encoder steps (the `.and_then` chains of the source):
a panic aborts the rest. -/
def eseq (a b : EncodeM) : EncodeM := fun out =>
  match a out with
  | .ok out' => b out'
  | .panic => .panic

/-- Run a list of encoder steps in order. -/
def eAll (ms : List EncodeM) : EncodeM := ms.foldl eseq (fun out => .ok out)

/-- Append literal text to the output. -/
def emitRaw (s : String) : EncodeM := fun out => .ok (out ++ s)

/-- A panic inside an encode closure (`Option::unwrap` on `None`). -/
def epanic : EncodeM := fun _ => .panic

/-- `Encoder::emit_str`: an escaped, quoted JSON string literal. -/
def emitStr (s : String) : EncodeM := emitRaw (escapeStr s)

/-- `Encoder::emit_u64` (also `emit_usize`): the decimal digits, unquoted. -/
def emitU64 (n : Nat) : EncodeM := emitRaw (toString n)

/-- `Encoder::emit_i64`: the signed decimal digits, unquoted. -/
def emitI64 (n : Int) : EncodeM := emitRaw (toString n)

/-- `Encoder::emit_nil`, which is also `emit_option_none`: the literal
`null`. An unset `Option` field is thus emitted as an explicit `null`. -/
def emitNull : EncodeM := emitRaw "null"

/-- `Encoder::emit_bool`. -/
def emitBool (b : Bool) : EncodeM := emitRaw (cond b "true" "false")

/-- The library `Encodable` impl for `Option<T>`: `emit_option_none` (= `null`)
when unset, the value's own encode when set. -/
def emitOption (f : α → EncodeM) : Option α → EncodeM
  | none => emitNull
  | some a => f a

/-- `Encoder::emit_struct_field`: a comma when not the first field, then the
escaped field name, a colon, and the field body. -/
def emitStructField (name : String) (idx : Nat) (f : EncodeM) : EncodeM :=
  eAll [(if idx = 0 then emitRaw "" else emitRaw ","), emitRaw (escapeStr name), emitRaw ":", f]

/-- `Encoder::emit_struct`: braces around the field sequence. -/
def emitStruct (f : EncodeM) : EncodeM := eAll [emitRaw "\x7b", f, emitRaw "\x7d"]

/-- `Encoder::emit_seq`: brackets around the element sequence. -/
def emitSeq (f : EncodeM) : EncodeM := eAll [emitRaw "[", f, emitRaw "]"]

/-- `Encoder::emit_seq_elt`: a comma when not the first element. -/
def emitSeqElt (idx : Nat) (f : EncodeM) : EncodeM :=
  eAll [(if idx = 0 then emitRaw "" else emitRaw ","), f]

/-- The session state owned by the `Pocket` struct (the reqwest `Client`
field, which holds no session data, is not modelled). -/
structure PState where
  consumer_key : String
  access_token : Option String
  code : Option String

/-- `PocketAddRequest`'s derived `RustcEncodable` impl: all six fields in
declaration order; the three optional fields go through the `Option` encode
(an explicit `null` when unset). -/
def PocketAddRequest.encode (consumer_key access_token url : String)
    (title tags tweet_id : Option String) : EncodeM :=
  emitStruct (eAll [
    emitStructField "consumer_key" 0 (emitStr consumer_key),
    emitStructField "access_token" 1 (emitStr access_token),
    emitStructField "url" 2 (emitStr url),
    emitStructField "title" 3 (emitOption emitStr title),
    emitStructField "tags" 4 (emitOption emitStr tags),
    emitStructField "tweet_id" 5 (emitOption emitStr tweet_id)])

/-- `PocketOAuthRequest`'s derived `RustcEncodable` impl. -/
def PocketOAuthRequest.encode (consumer_key redirect_uri : String)
    (state : Option String) : EncodeM :=
  emitStruct (eAll [
    emitStructField "consumer_key" 0 (emitStr consumer_key),
    emitStructField "redirect_uri" 1 (emitStr redirect_uri),
    emitStructField "state" 2 (emitOption emitStr state)])

/-- `PocketAuthorizeRequest`'s derived `RustcEncodable` impl. -/
def PocketAuthorizeRequest.encode (consumer_key code : String) : EncodeM :=
  emitStruct (eAll [
    emitStructField "consumer_key" 0 (emitStr consumer_key),
    emitStructField "code" 1 (emitStr code)])

/-- `PocketGetTag`. -/
inductive PocketGetTag where
  | untagged
  | tagged (s : String)

/-- `PocketGetTag`'s `Encodable` impl: the `_untagged_` sentinel string or
the tag text. -/
def PocketGetTag.encode : PocketGetTag → EncodeM
  | .untagged => emitStr "_untagged_"
  | .tagged s => emitStr s

/-- `PocketGetState`. -/
inductive PocketGetState where
  | unread
  | archive
  | all

/-- `PocketGetState`'s `Encodable` impl. -/
def PocketGetState.encode : PocketGetState → EncodeM
  | .unread => emitStr "unread"
  | .archive => emitStr "archive"
  | .all => emitStr "all"

/-- `PocketGetDetail`. -/
inductive PocketGetDetail where
  | simple
  | complete

/-- `PocketGetDetail`'s `Encodable` impl. -/
def PocketGetDetail.encode : PocketGetDetail → EncodeM
  | .simple => emitStr "simple"
  | .complete => emitStr "complete"

/-- `PocketGetSort`. -/
inductive PocketGetSort where
  | newest
  | oldest
  | title
  | site

/-- `PocketGetSort`'s `Encodable` impl. -/
def PocketGetSort.encode : PocketGetSort → EncodeM
  | .newest => emitStr "newest"
  | .oldest => emitStr "oldest"
  | .title => emitStr "title"
  | .site => emitStr "site"

/-- `PocketGetType`. -/
inductive PocketGetType where
  | article
  | video
  | image

/-- `PocketGetType`'s `Encodable` impl. -/
def PocketGetType.encode : PocketGetType → EncodeM
  | .article => emitStr "article"
  | .video => emitStr "video"
  | .image => emitStr "image"

/-- The eleven optional filter clauses of `PocketGetRequest` (the `pocket`
back-reference is passed separately as the session state). `new` leaves every
clause unset. -/
structure PocketGetRequest where
  search : Option String := none
  domain : Option String := none
  tag : Option PocketGetTag := none
  state : Option PocketGetState := none
  content_type : Option PocketGetType := none
  detail_type : Option PocketGetDetail := none
  favorite : Option Bool := none
  since : Option Timespec := none
  sort : Option PocketGetSort := none
  count : Option Nat := none
  offset : Option Nat := none

/-- `PocketGetRequest`'s hand-written `Encodable` impl: thirteen fields in
the source's order; `access_token` is `self.pocket.access_token.as_ref()
.unwrap()` — a panic when the session holds no token; every unset clause goes
through the `Option` encode and is emitted as `null`. -/
def PocketGetRequest.encode (p : PState) (r : PocketGetRequest) : EncodeM :=
  emitStruct (eAll [
    emitStructField "consumer_key" 0 (emitStr p.consumer_key),
    emitStructField "access_token" 1
      (match p.access_token with
       | none => epanic
       | some t => emitStr t),
    emitStructField "search" 2 (emitOption emitStr r.search),
    emitStructField "domain" 3 (emitOption emitStr r.domain),
    emitStructField "tag" 4 (emitOption PocketGetTag.encode r.tag),
    emitStructField "state" 5 (emitOption PocketGetState.encode r.state),
    emitStructField "content_type" 6 (emitOption PocketGetType.encode r.content_type),
    emitStructField "detail_type" 7 (emitOption PocketGetDetail.encode r.detail_type),
    emitStructField "favorite" 8 (emitOption emitBool r.favorite),
    emitStructField "since" 9 (emitOption emitI64 (r.since.map Timespec.sec)),
    emitStructField "sort" 10 (emitOption PocketGetSort.encode r.sort),
    emitStructField "count" 11 (emitOption emitU64 r.count),
    emitStructField "offset" 12 (emitOption emitU64 r.offset)])

/-- The field set shared by the `impl_item_pocket_action!` macro expansions
(`PocketArchiveAction`, `PocketReaddAction`, `PocketFavoriteAction`,
`PocketUnfavoriteAction`, `PocketDeleteAction`, `PocketTagsClearAction`):
an item id and an optional timestamp. -/
structure ItemTimeAction where
  item_id : Nat
  time : Option Nat

/-- The `JsonEncodable` impl generated by `impl_item_pocket_action!`:
the discriminator, the item id, and the optional time (null when unset). -/
def ItemTimeAction.json_encode (nm : String) (a : ItemTimeAction) : EncodeM :=
  emitStruct (eAll [
    emitStructField "name" 0 (emitStr nm),
    emitStructField "item_id" 1 (emitU64 a.item_id),
    emitStructField "time" 2 (emitOption emitU64 a.time)])

/-- The closed set of action values (`&[&PocketAction]` trait objects in the
source), one constructor per action struct. -/
inductive PAction where
  | add (item_id : Option Nat) (ref_id : Option String) (tags : Option String)
        (time : Option Nat) (title : Option String) (url : Option String)
  | archive (a : ItemTimeAction)
  | readd (a : ItemTimeAction)
  | favorite (a : ItemTimeAction)
  | unfavorite (a : ItemTimeAction)
  | delete (a : ItemTimeAction)
  | tagsAdd (item_id : Nat) (tags : String) (time : Option Nat)
  | tagsReplace (item_id : Nat) (tags : String) (time : Option Nat)
  | tagsClear (a : ItemTimeAction)
  | tagRename (item_id : Nat) (old_tag : String) (new_tag : String) (time : Option Nat)

/-- `PocketAction::name`: the discriminator string of each variant. -/
def PAction.name : PAction → String
  | .add .. => "add"
  | .archive _ => "archive"
  | .readd _ => "readd"
  | .favorite _ => "favorite"
  | .unfavorite _ => "unfavorite"
  | .delete _ => "delete"
  | .tagsAdd .. => "tags_add"
  | .tagsReplace .. => "tags_replace"
  | .tagsClear _ => "tags_clear"
  | .tagRename .. => "tag_rename"

/-- The per-variant `JsonEncodable` impls. `PocketAddAction` emits all seven
fields with unset options as `null`; `PocketTagsAddAction` emits `name`,
`tags`, `time` (its `item_id` field is never emitted, exactly as in the
source); `PocketTagsReplaceAction` and `PocketTagRenameAction` emit theirs in
declaration order. -/
def PAction.json_encode : PAction → EncodeM
  | .add item_id ref_id tags time title url =>
    emitStruct (eAll [
      emitStructField "name" 0 (emitStr "add"),
      emitStructField "item_id" 1 (emitOption emitU64 item_id),
      emitStructField "ref_id" 2 (emitOption emitStr ref_id),
      emitStructField "tags" 3 (emitOption emitStr tags),
      emitStructField "time" 4 (emitOption emitU64 time),
      emitStructField "title" 5 (emitOption emitStr title),
      emitStructField "url" 6 (emitOption emitStr url)])
  | .archive a => ItemTimeAction.json_encode "archive" a
  | .readd a => ItemTimeAction.json_encode "readd" a
  | .favorite a => ItemTimeAction.json_encode "favorite" a
  | .unfavorite a => ItemTimeAction.json_encode "unfavorite" a
  | .delete a => ItemTimeAction.json_encode "delete" a
  | .tagsAdd _item_id tags time =>
    emitStruct (eAll [
      emitStructField "name" 0 (emitStr "tags_add"),
      emitStructField "tags" 1 (emitStr tags),
      emitStructField "time" 2 (emitOption emitU64 time)])
  | .tagsReplace item_id tags time =>
    emitStruct (eAll [
      emitStructField "name" 0 (emitStr "tags_replace"),
      emitStructField "item_id" 1 (emitU64 item_id),
      emitStructField "tags" 2 (emitStr tags),
      emitStructField "time" 3 (emitOption emitU64 time)])
  | .tagsClear a => ItemTimeAction.json_encode "tags_clear" a
  | .tagRename item_id old_tag new_tag time =>
    emitStruct (eAll [
      emitStructField "name" 0 (emitStr "tag_rename"),
      emitStructField "item_id" 1 (emitU64 item_id),
      emitStructField "old_tag" 2 (emitStr old_tag),
      emitStructField "new_tag" 3 (emitStr new_tag),
      emitStructField "time" 4 (emitOption emitU64 time)])

/-- `PocketSendRequest::json_encode`: credentials (with the
`access_token.as_ref().unwrap()` panic when no token is held), then the
action list as a JSON array of each action's own encode. -/
def PocketSendRequest.json_encode (p : PState) (actions : List PAction) : EncodeM :=
  emitStruct (eAll [
    emitStructField "consumer_key" 0 (emitStr p.consumer_key),
    emitStructField "access_token" 1
      (match p.access_token with
       | none => epanic
       | some t => emitStr t),
    emitStructField "actions" 2
      (emitSeq (eAll (actions.enum.map fun ia => emitSeqElt ia.1 ia.2.json_encode)))])

/-- `PocketError` — the unified error taxonomy. The `Http` and `Io` payloads
are external (reqwest / std::io) and carried opaquely. -/
inductive PocketError where
  | http
  | io
  | json (e : DecoderError)
  | format
  | proto (code : Nat) (msg : String)

/-- Outcome of a client operation: the typed success value, one `PocketError`,
or a panic. -/
inductive POut (α : Type) where
  | ok (a : α)
  | err (e : PocketError)
  | panic

/-- The transport collaborator's result for one completed POST: the two
out-of-band headers (`XErrorCode`, `XError`) and the response body. The body
is carried already parsed as a `Json` value (the textual JSON parsing of
`json::decode` is the standard parser and is not itself modelled; a body that
fails to parse yields `PocketError::Json(ParseError)` before any decode). -/
structure HttpResponse where
  xErrorCode : Option String
  xError : Option String
  body : Json

/-- `json::decode::<Resp>`: run the `Decodable` impl on a fresh decoder whose
stack holds just the parsed body. -/
def jsonDecode (dec : DecodeM α) (j : Json) : DRes α := dec [j]

/-- `Pocket::request` (after the POST itself): if the `XErrorCode` header is
present, parse it as a `u16` (`to_str().unwrap().parse().unwrap()` — a panic
when the header value is not a valid `u16`) and yield
`PocketError::Proto(code, msg)` with the `XError` header's value or
`"unknown protocol error"`, never touching the body; only when the header is
absent is the body read and handed to `json::decode`. -/
def Pocket.request (dec : DecodeM α) (resp : HttpResponse) : POut α :=
  match resp.xErrorCode with
  | some s =>
    match rustFromStr 65535 s with
    | some code => .err (.proto code (resp.xError.getD "unknown protocol error"))
    | none => .panic
  | none =>
    match jsonDecode dec resp.body with
    | .ok a _ => .ok a
    | .err e _ => .err (.json e)
    | .panic => .panic

/-- The authorization URL built by `Pocket::get_auth_url` (the `url` crate's
query encoding is external; the two query pairs are carried structurally). -/
structure AuthUrl where
  base : String
  request_token : String
  redirect_uri : String

/-- `Pocket::get_auth_url`: encode a `PocketOAuthRequest`, POST it, and on
success store the returned code in the session and build the authorize URL.
On failure the session is unchanged. -/
def Pocket.get_auth_url (st : PState) (resp : HttpResponse) : POut AuthUrl × PState :=
  match PocketOAuthRequest.encode st.consumer_key "rustapi:finishauth" none "" with
  | .panic => (.panic, st)
  | .ok _ =>
    match Pocket.request PocketOAuthResponse.decode resp with
    | .ok r => (.ok ⟨"https://getpocket.com/auth/authorize", r.code, "rustapi:finishauth"⟩,
                { st with code := some r.code })
    | .err e => (.err e, st)
    | .panic => (.panic, st)

/-- `Pocket::authorize`: `self.code.as_ref().unwrap()` panics when no
authorization was initiated; otherwise POST the `PocketAuthorizeRequest` and
on success store the access token and return the username. On failure the
session is unchanged. -/
def Pocket.authorize (st : PState) (resp : HttpResponse) : POut String × PState :=
  match st.code with
  | none => (.panic, st)
  | some c =>
    match PocketAuthorizeRequest.encode st.consumer_key c "" with
    | .panic => (.panic, st)
    | .ok _ =>
      match Pocket.request PocketAuthorizeResponse.decode resp with
      | .ok r => (.ok r.username, { st with access_token := some r.access_token })
      | .err e => (.err e, st)
      | .panic => (.panic, st)

/-- `Pocket::add`: building the `PocketAddRequest` evaluates
`self.access_token.as_ref().unwrap()` — a panic when the session holds no
token — then encodes and POSTs it, mapping the response to its `item`. The
session state is never assigned to. -/
def Pocket.add (st : PState) (url : String) (title tags tweet_id : Option String)
    (resp : HttpResponse) : POut PocketAddedItem × PState :=
  match st.access_token with
  | none => (.panic, st)
  | some tok =>
    match PocketAddRequest.encode st.consumer_key tok url title tags tweet_id "" with
    | .panic => (.panic, st)
    | .ok _ =>
      match Pocket.request PocketAddResponse.decode resp with
      | .ok r => (.ok r.item, st)
      | .err e => (.err e, st)
      | .panic => (.panic, st)

/-- `PocketGetRequest::get`: encode the filter (`self.encode(..).unwrap()` —
the encode itself panics on a missing access token), POST it, and map the
response to its `list`. The session state is never assigned to. -/
def Pocket.get (st : PState) (r : PocketGetRequest) (resp : HttpResponse) :
    POut (List PocketItem) × PState :=
  match PocketGetRequest.encode st r "" with
  | .panic => (.panic, st)
  | .ok _ =>
    match Pocket.request PocketGetResponse.decode resp with
    | .ok v => (.ok v.list, st)
    | .err e => (.err e, st)
    | .panic => (.panic, st)

/-- `Pocket::filter`: returns a fresh all-unset `PocketGetRequest` borrowing
the session; nothing is assigned. -/
def Pocket.filter (st : PState) : PocketGetRequest × PState := ({}, st)

/-- Whether a decoder outcome is an error (the `Decode`/`Json` error class —
as opposed to success or a panic). -/
def DRes.isErr : DRes α → Bool
  | .err .. => true
  | _ => false

/-- The base-10 value of a digit string (most significant digit first): the
mathematical reading against which the decoder's string-to-integer parse is
compared. -/
def digitsVal (cs : List Char) : Nat :=
  cs.foldl (fun a c => a * 10 + digitVal c) 0

/-- A well-formed `ItemVideo` wire object (keys in `BTreeMap` ascending
order), used as a concrete decode input. -/
def videoJson : Json := .obj [
  ("height", .u64 100), ("item_id", .u64 1), ("length", .null),
  ("src", .str "s"), ("type", .u64 1), ("vid", .str "v"),
  ("video_id", .u64 2), ("width", .u64 200)]

/-- The decode of `videoJson`. -/
def videoVal : ItemVideo :=
  { item_id := 1, video_id := 2, src := "s", width := 200, height := 100,
    length := none, vid := "v", vtype := 1 }

/-- A well-formed `PocketItem` wire object: all nineteen required fields
(keys in `BTreeMap` ascending order; the optional `videos`/`images` fields
are absent). -/
def goodItemJson : Json := .obj [
  ("excerpt", .str "e"), ("favorite", .u64 1), ("given_title", .str "t"),
  ("given_url", .str "u"), ("has_image", .u64 0), ("has_video", .u64 1),
  ("is_article", .u64 0), ("is_index", .u64 0), ("item_id", .u64 1),
  ("resolved_id", .u64 2), ("resolved_title", .str "rt"), ("resolved_url", .str "ru"),
  ("sort_id", .u64 0), ("status", .u64 0), ("time_added", .u64 10),
  ("time_favorited", .u64 11), ("time_read", .u64 12), ("time_updated", .u64 13),
  ("word_count", .u64 5)]

/-- The decode of `goodItemJson`. -/
def goodItemVal : PocketItem :=
  { item_id := 1, given_url := "u", given_title := "t", word_count := 5,
    excerpt := "e", time_added := ⟨10, 0⟩, time_read := ⟨12, 0⟩,
    time_updated := ⟨13, 0⟩, time_favorited := ⟨11, 0⟩, favorite := true,
    is_index := false, is_article := false, has_image := .no,
    has_video := .yes, resolved_id := 2, resolved_title := "rt",
    resolved_url := "ru", sort_id := 0, status := .normal,
    images := none, videos := none }

/-- A get-operation response body whose item list holds one malformed entry
(`"a" ↦ bad`) and one well-formed entry (`"b" ↦ goodItemJson`), together with
the remaining response fields. -/
def getRespWithBad (bad : Json) : Json := .obj [
  ("complete", .u64 1), ("error", .null),
  ("list", .obj [("a", bad), ("b", goodItemJson)]),
  ("since", .u64 1000), ("status", .u64 1)]

/-- A send-actions response body carrying three boolean action results. -/
def sendResp3 : Json := .obj [
  ("action_results", .arr [.boolean true, .boolean false, .boolean true]),
  ("status", .u64 1)]

/-- The session state used for concrete witnesses that need no credentials. -/
def st0 : PState := { consumer_key := "abc", access_token := none, code := none }

/-- A transport result with the error-code header present (`198`), the
error-message header present, and a non-empty body. -/
def resp198 : HttpResponse :=
  { xErrorCode := some "198", xError := some "invalid consumer key",
    body := Json.obj [("foo", Json.u64 1)] }

/-- C1 counterexample: in a get-response whose item list holds a malformed
entry (`"a" ↦ 5`, which fails to decode as a `PocketItem`, first conjunct)
and a well-formed entry, the whole response decode does NOT yield a Decode
error — it succeeds, surfacing the partial one-item list to the caller. -/
theorem c1_counterexample :
    (PocketItem.decode [Json.u64 5]).isErr = true ∧
    PocketGetResponse.decode [getRespWithBad (Json.u64 5)] =
      .ok { list := [goodItemVal], status := 1, complete := true,
            error := none, since := ⟨1000, 0⟩ } [] :=
  ⟨rfl, rfl⟩

/-- C1 amended: an element of the get-operation's item list that fails to
decode is silently skipped (the `flat_map` over per-element `Result`s drops
failures), and the response decode succeeds with the partial list of the
remaining, successfully decoded items — here for every malformed numeric
entry value `n`. -/
theorem c1_amended (n : Nat) :
    PocketGetResponse.decode [getRespWithBad (Json.u64 n)] =
      .ok { list := [goodItemVal], status := 1, complete := true,
            error := none, since := ⟨1000, 0⟩ } [] :=
  rfl

/-- C2: the tri-state flag and item-status decodes accept the wire integers
0, 1, 2 and yield the corresponding variants, but an out-of-range wire
integer does NOT fail with a decode error: values 3–255 reach the
`_ => unreachable!()` arm and panic (shown here at 3), while only values
that do not fit in a `u8` (≥ 256) fail with a decode error. -/
theorem c2_enum_out_of_range_panics :
    PocketItemHas.decode [Json.u64 0] = .ok .no [] ∧
    PocketItemHas.decode [Json.u64 1] = .ok .yes [] ∧
    PocketItemHas.decode [Json.u64 2] = .ok .is_ [] ∧
    PocketItemStatus.decode [Json.u64 0] = .ok .normal [] ∧
    PocketItemStatus.decode [Json.u64 1] = .ok .archived [] ∧
    PocketItemStatus.decode [Json.u64 2] = .ok .deleted [] ∧
    PocketItemHas.decode [Json.u64 3] = .panic ∧
    PocketItemStatus.decode [Json.u64 3] = .panic ∧
    (PocketItemHas.decode [Json.u64 256]).isErr = true ∧
    (PocketItemStatus.decode [Json.u64 256]).isErr = true :=
  ⟨rfl, rfl, rfl, rfl, rfl, rfl, rfl, rfl, rfl, rfl⟩

/-- C3 counterexample: the two-shape contract does not hold. A list-item
collection field (`PocketItem`'s `videos`) REJECTS the empty array (first
conjunct), and an added-item collection field (`PocketAddedItem`'s
`videos`/`images` reader) REJECTS the indexed-object shape even with an
all-integer key (second conjunct). -/
theorem c3_counterexample :
    (PocketItem.readVideos [Json.arr []]).isErr = true ∧
    (readSeqFlatMap ItemVideo.decode [Json.obj [("0", videoJson)]]).isErr = true :=
  ⟨rfl, rfl⟩

/-- C3 amended: what the collection-field decoders actually accept. The
added-item reader accepts only a JSON array (empty array → empty sequence);
the list-item reader accepts only `null` (→ no collection) or a JSON object
— and for a non-empty object it never validates keys: entries are popped off
the decoder stack key-by-key and value-by-value alternately, each popped
item is itself tried as an element decode with failures skipped, so a
two-entry object yields only the second entry's value and leaves the first
entry's key and value behind on the stack. -/
theorem c3_amended :
    PocketItem.readVideos [Json.null] = .ok none [] ∧
    readSeqFlatMap ItemVideo.decode [Json.arr []] = .ok [] [] ∧
    PocketItem.readVideos [Json.obj []] = .ok (some []) [] ∧
    PocketItem.readVideos [Json.obj [("0", videoJson), ("1", videoJson)]] =
      .ok (some [videoVal]) [Json.str "0", videoJson] :=
  ⟨rfl, rfl, rfl, rfl⟩

/-- C5 counterexample: an add request with every optional field unset does
not encode to an object with only `consumer_key`, `access_token`, `url` —
the three optional keys are present with explicit `null` values. -/
theorem c5_counterexample :
    PocketAddRequest.encode "abc" "def" "http://example.com" none none none "" =
      .ok "\x7b\"consumer_key\":\"abc\",\"access_token\":\"def\",\"url\":\"http://example.com\",\"title\":null,\"tags\":null,\"tweet_id\":null\x7d" ∧
    PocketAddRequest.encode "abc" "def" "http://example.com" none none none "" ≠
      .ok "\x7b\"consumer_key\":\"abc\",\"access_token\":\"def\",\"url\":\"http://example.com\"\x7d" := by
  constructor
  · rfl
  · intro h
    have h1 : PocketAddRequest.encode "abc" "def" "http://example.com" none none none "" =
        .ok "\x7b\"consumer_key\":\"abc\",\"access_token\":\"def\",\"url\":\"http://example.com\",\"title\":null,\"tags\":null,\"tweet_id\":null\x7d" := rfl
    rw [h1] at h
    exact absurd (ERes.ok.inj h) (by decide)

/-- C5 amended: an unset optional request field is emitted as its key with an
explicit `null` (never omitted): the add request with the three optionals
unset contains `"title":null`, `"tags":null`, `"tweet_id":null` after the
three required keys. -/
theorem c5_amended :
    PocketAddRequest.encode "abc" "def" "http://example.com" none none none "" =
      .ok ("\x7b\"consumer_key\":\"abc\",\"access_token\":\"def\",\"url\":\"http://example.com\"" ++
           ",\"title\":null" ++ ",\"tags\":null" ++ ",\"tweet_id\":null" ++ "\x7d") :=
  rfl

/-- C6 counterexample: a boolean-coded wire field decoded with the source's
`read_u8().map(|v| v != 0)` reader does not fail on the integer 2 — it
decodes to `true`. -/
theorem c6_counterexample : readBoolU8 [Json.u64 2] = .ok true [] := rfl

/-- C8 counterexample: a send-actions submission of one action (first
conjunct: the encoded one-action request) whose response carries three
boolean results decodes successfully to the full three-element list — no
Decode error, no truncation or padding to the submitted count. -/
theorem c8_counterexample :
    PocketSendRequest.json_encode ⟨"abc", some "def", none⟩
        [PAction.archive ⟨1, none⟩] "" =
      .ok "\x7b\"consumer_key\":\"abc\",\"access_token\":\"def\",\"actions\":[\x7b\"name\":\"archive\",\"item_id\":1,\"time\":null\x7d]\x7d" ∧
    PocketSendResponse.decode [sendResp3] =
      .ok ⟨1, [true, false, true]⟩ [] ∧
    Pocket.request PocketSendResponse.decode ⟨none, none, sendResp3⟩ =
      .ok ⟨1, [true, false, true]⟩ :=
  ⟨rfl, rfl, rfl⟩

/-- Running a bind: a successful first computation hands its value and stack
to the continuation. -/
theorem DecodeM.bind_ok {α β : Type} (m : DecodeM α) (f : α → DecodeM β) {st st' : Stack}
    {a : α} (h : m st = .ok a st') : (m >>= f) st = f a st' := by
  show DecodeM.bind m f st = f a st'
  unfold DecodeM.bind
  rw [h]

/-- Running a bind: a failing first computation short-circuits, keeping the
stack it left. -/
theorem DecodeM.bind_err {α β : Type} (m : DecodeM α) (f : α → DecodeM β) {st st' : Stack}
    {e : DecoderError} (h : m st = .err e st') : (m >>= f) st = .err e st' := by
  show DecodeM.bind m f st = DRes.err e st'
  unfold DecodeM.bind
  rw [h]

/-- `read_struct_field` on a present field whose body decode succeeds:
the field is removed from the object, the body's result is returned, and the
reduced object is pushed back above the body's final stack. -/
theorem readStructField_found_ok {α : Type} (name : String) (idx : Nat) (f : DecodeM α)
    (kvs kvs' : List (String × Json)) (v : Json) (rest : Stack) (a : α) (st' : Stack)
    (h1 : removeKey kvs name = (some v, kvs'))
    (h2 : f (v :: rest) = .ok a st') :
    readStructField name idx f (Json.obj kvs :: rest) = .ok a (Json.obj kvs' :: st') := by
  unfold readStructField
  simp only [h1, h2]

/-- The digit-accumulation fold never decreases the accumulator. -/
theorem foldl_digits_ge (cs : List Char) (acc : Nat) :
    acc ≤ cs.foldl (fun a c => a * 10 + digitVal c) acc := by
  induction cs generalizing acc with
  | nil => exact Nat.le_refl acc
  | cons c rest ih =>
    calc acc ≤ acc * 10 + digitVal c := by omega
      _ ≤ _ := ih (acc * 10 + digitVal c)

/-- On an all-digit input whose accumulated value stays within the type's
range, the checked parse loop succeeds with exactly the base-10 fold. -/
theorem rustParseLoop_digits (maxv : Nat) (cs : List Char) :
    ∀ acc : Nat, cs.all Char.isDigit = true →
      cs.foldl (fun a c => a * 10 + digitVal c) acc ≤ maxv →
      rustParseLoop maxv cs acc = some (cs.foldl (fun a c => a * 10 + digitVal c) acc) := by
  induction cs with
  | nil => intro acc _ _; rfl
  | cons c rest ih =>
    intro acc hd hb
    simp only [List.all_cons, Bool.and_eq_true] at hd
    rw [List.foldl_cons] at hb ⊢
    have hle : acc * 10 + digitVal c ≤ maxv :=
      Nat.le_trans (foldl_digits_ge rest (acc * 10 + digitVal c)) hb
    show (if c.isDigit = true then
            if acc * 10 + digitVal c ≤ maxv then
              rustParseLoop maxv rest (acc * 10 + digitVal c)
            else none
          else none) = _
    rw [if_pos hd.1, if_pos hle]
    exact ih (acc * 10 + digitVal c) hd.2 hb

/-- `str::parse` on a string whose first character is not `+` is just the
digit loop over all characters. -/
theorem rustFromStr_cons (maxv : Nat) (c : Char) (rest : List Char) (h : ¬ c = '+') :
    rustFromStr maxv (String.mk (c :: rest)) = rustParseLoop maxv (c :: rest) 0 := by
  show (if c = '+' then
          if rest.isEmpty then none else rustParseLoop maxv rest 0
        else rustParseLoop maxv (c :: rest) 0) = rustParseLoop maxv (c :: rest) 0
  rw [if_neg h]

/-- C4 counterexample: the identifier decode accepts `"+12"` — an input
containing non-digit content — and parses it to `12` instead of failing. -/
theorem c4_counterexample :
    readU64 [Json.str "+12"] = .ok 12 [] ∧
    "+12".data.all Char.isDigit = false :=
  ⟨rfl, by decide⟩

/-- C4 amended: a JSON string of ASCII digits decodes exactly and losslessly
to its base-10 value provided that value fits in the target's 64-bit range;
a digit string whose value exceeds `u64::MAX` fails (third conjunct), as
does other non-digit content such as `"12a"` (second conjunct) — but a
leading `+` is additionally accepted (see the counterexample). -/
theorem c4_amended :
    (∀ cs : List Char, cs ≠ [] → cs.all Char.isDigit = true →
        digitsVal cs < 2 ^ 64 →
        readU64 [Json.str (String.mk cs)] = .ok (digitsVal cs) []) ∧
    readU64 [Json.str "12a"] = .err (.expectedError "Number" "12a") [] ∧
    readU64 [Json.str "18446744073709551616"] =
      .err (.expectedError "Number" "18446744073709551616") [] := by
  refine ⟨?_, rfl, rfl⟩
  intro cs hne hdig hlt
  cases cs with
  | nil => exact absurd rfl hne
  | cons c rest =>
    simp only [List.all_cons, Bool.and_eq_true] at hdig
    have hplus : ¬ c = '+' := by
      intro hc
      have hd1 := hdig.1
      rw [hc] at hd1
      exact absurd hd1 (by decide)
    have hp : rustFromStr (2 ^ 64 - 1) (String.mk (c :: rest)) =
        some (digitsVal (c :: rest)) := by
      rw [rustFromStr_cons _ _ _ hplus]
      exact rustParseLoop_digits (2 ^ 64 - 1) (c :: rest) 0
        (by simp only [List.all_cons, Bool.and_eq_true]; exact hdig)
        (Nat.le_pred_of_lt hlt)
    calc readU64 [Json.str (String.mk (c :: rest))]
        = readPrimStr (2 ^ 64 - 1) (String.mk (c :: rest)) [] := rfl
      _ = .ok (digitsVal (c :: rest)) [] := by
          unfold readPrimStr
          rw [hp]
          rfl

/-- C4 witness: the amended theorem applied at the digit string `"12345"`,
whose hypotheses hold by computation. -/
theorem c4_witness :
    ("12345".data ≠ [] ∧ "12345".data.all Char.isDigit = true ∧
      digitsVal "12345".data < 2 ^ 64) ∧
    readU64 [Json.str "12345"] = .ok 12345 [] := by
  refine ⟨⟨by decide, by decide, by decide⟩, ?_⟩
  exact c4_amended.1 "12345".data (by decide) (by decide) (by decide)

/-- C6 amended: for the `read_u8().map(|v| v != 0)` boolean reader, wire
integer 0 decodes to `false`, every integer 1–255 decodes to `true`, and
only integers outside the `u8` range fail with a decode error. -/
theorem c6_amended :
    readBoolU8 [Json.u64 0] = .ok false [] ∧
    (∀ n : Nat, 1 ≤ n → n ≤ 255 → readBoolU8 [Json.u64 n] = .ok true []) ∧
    (∀ n : Nat, 256 ≤ n → (readBoolU8 [Json.u64 n]).isErr = true) := by
  refine ⟨rfl, ?_, ?_⟩
  · intro n h1 h2
    have h8 : readU8 [Json.u64 n] = .ok n [] := by
      show (if n ≤ 255 then (pure n : DecodeM Nat)
            else derr (.expectedError "Number" (toString n))) [] = .ok n []
      rw [if_pos h2]
      rfl
    have hb : (n != 0) = true := by
      simp only [bne_iff_ne, ne_eq]
      omega
    calc readBoolU8 [Json.u64 n]
        = (pure (n != 0) : DecodeM Bool) [] :=
          DecodeM.bind_ok readU8 (fun v => (pure (v != 0) : DecodeM Bool)) h8
      _ = .ok true [] := by rw [hb]; rfl
  · intro n h
    have h8 : readU8 [Json.u64 n] = .err (.expectedError "Number" (toString n)) [] := by
      show (if n ≤ 255 then (pure n : DecodeM Nat)
            else derr (.expectedError "Number" (toString n))) [] = _
      rw [if_neg (by omega)]
      rfl
    calc (readBoolU8 [Json.u64 n]).isErr
        = (DRes.err (DecoderError.expectedError "Number" (toString n)) [] : DRes Bool).isErr :=
          congrArg DRes.isErr
            (DecodeM.bind_err readU8 (fun v => (pure (v != 0) : DecodeM Bool)) h8)
      _ = true := rfl

/-- C6 witness: the amended theorem applied at wire integers 7 (→ `true`)
and 300 (→ decode error). -/
theorem c6_witness :
    ((1 ≤ 7 ∧ 7 ≤ 255) ∧ readBoolU8 [Json.u64 7] = .ok true []) ∧
    (256 ≤ 300 ∧ (readBoolU8 [Json.u64 300]).isErr = true) :=
  ⟨⟨⟨by decide, by decide⟩, c6_amended.2.1 7 (by decide) (by decide)⟩,
   ⟨by decide, c6_amended.2.2 300 (by decide)⟩⟩

/-- C7: header precedence in `Pocket::request`. When the error-code header
is present (carrying a value that parses as a `u16` code), the operation
yields `Proto(code, msg)` with the error-message header's value (or the
fallback message when that header is absent), for every response body — the
body is never touched. Only when the header is absent is the body handed to
`json::decode`: a successful decode yields the value, a failed decode yields
the `Json` (Decode) error. -/
theorem c7_header_precedence :
    (∀ (α : Type) (dec : DecodeM α) (resp : HttpResponse) (s : String) (code : Nat),
        resp.xErrorCode = some s → rustFromStr 65535 s = some code →
        Pocket.request dec resp =
          .err (.proto code (resp.xError.getD "unknown protocol error"))) ∧
    (∀ (α : Type) (dec : DecodeM α) (resp : HttpResponse) (a : α) (st : Stack),
        resp.xErrorCode = none → dec [resp.body] = .ok a st →
        Pocket.request dec resp = .ok a) ∧
    (∀ (α : Type) (dec : DecodeM α) (resp : HttpResponse) (e : DecoderError) (st : Stack),
        resp.xErrorCode = none → dec [resp.body] = .err e st →
        Pocket.request dec resp = .err (.json e)) := by
  refine ⟨?_, ?_, ?_⟩
  · intro α dec resp s code h1 h2
    unfold Pocket.request
    simp only [h1, h2]
  · intro α dec resp a st h1 h2
    unfold Pocket.request jsonDecode
    simp only [h1, h2]
  · intro α dec resp e st h1 h2
    unfold Pocket.request jsonDecode
    simp only [h1, h2]

/-- C7 witness: the theorem applied to a response with error-code header
`198`, message header `"invalid consumer key"` and a non-empty body (first
conjunct), and to a header-free response whose body decodes (second
conjunct). -/
theorem c7_witness :
    (resp198.xErrorCode = some "198" ∧ rustFromStr 65535 "198" = some 198 ∧
      Pocket.request PocketGetResponse.decode resp198 =
        .err (.proto 198 "invalid consumer key")) ∧
    Pocket.request readU16 ⟨none, none, Json.u64 7⟩ = .ok 7 :=
  ⟨⟨rfl, rfl, c7_header_precedence.1 _ PocketGetResponse.decode resp198 "198" 198 rfl rfl⟩,
   c7_header_precedence.2.1 _ readU16 ⟨none, none, Json.u64 7⟩ 7 [] rfl rfl⟩

/-- The library `Vec<bool>` element loop consumes exactly the booleans the
array pushed onto the stack, in order, and returns them. -/
theorem vecCollect_bools (bs : List Bool) (rest : Stack) :
    vecCollect readBool (bs.map Json.boolean).length (bs.map Json.boolean ++ rest) =
      .ok bs rest := by
  induction bs generalizing rest with
  | nil => rfl
  | cons b bst ih =>
    calc vecCollect readBool (List.map Json.boolean (b :: bst)).length
          (List.map Json.boolean (b :: bst) ++ rest)
        = (vecCollect readBool (List.map Json.boolean bst).length >>=
            fun as => (pure (b :: as) : DecodeM (List Bool)))
            (List.map Json.boolean bst ++ rest) := rfl
      _ = (pure (b :: bst) : DecodeM (List Bool)) rest :=
          DecodeM.bind_ok _ (fun as => (pure (b :: as) : DecodeM (List Bool))) (ih rest)
      _ = .ok (b :: bst) rest := rfl

/-- C8 amended: decoding a send-actions response performs no length
validation at all — for every boolean list carried by the response, the
decode succeeds and returns exactly that list, independent of how many
actions were submitted (the decode has no access to the submitted count). -/
theorem c8_amended (bs : List Bool) :
    PocketSendResponse.decode
      [Json.obj [("action_results", Json.arr (bs.map Json.boolean)),
                 ("status", Json.u64 1)]] =
      .ok ⟨1, bs⟩ [] := by
  have hv : (readSeq fun s => vecCollect readBool s)
      (Json.arr (bs.map Json.boolean) :: ([] : Stack)) = .ok bs [] :=
    vecCollect_bools bs []
  have h2 : readStructField "action_results" 1 (readSeq fun s => vecCollect readBool s)
      (Json.obj [("action_results", Json.arr (bs.map Json.boolean))] :: []) =
      .ok bs [Json.obj []] :=
    readStructField_found_ok "action_results" 1 _ _ [] _ [] bs [] rfl hv
  have hbody : (readStructField "status" 0 readU16 >>= fun status =>
      readStructField "action_results" 1 (readSeq fun s => vecCollect readBool s) >>=
        fun action_results =>
      (pure { status, action_results } : DecodeM PocketSendResponse))
      [Json.obj [("action_results", Json.arr (bs.map Json.boolean)),
                 ("status", Json.u64 1)]] =
      .ok ⟨1, bs⟩ [Json.obj []] := by
    calc _ = (readStructField "action_results" 1 (readSeq fun s => vecCollect readBool s) >>=
              fun action_results =>
              (pure { status := 1, action_results } : DecodeM PocketSendResponse))
              [Json.obj [("action_results", Json.arr (bs.map Json.boolean))]] := rfl
      _ = (pure (⟨1, bs⟩ : PocketSendResponse) : DecodeM PocketSendResponse) [Json.obj []] :=
          DecodeM.bind_ok _
            (fun action_results =>
              (pure { status := 1, action_results } : DecodeM PocketSendResponse)) h2
      _ = .ok ⟨1, bs⟩ [Json.obj []] := rfl
  calc PocketSendResponse.decode
        [Json.obj [("action_results", Json.arr (bs.map Json.boolean)),
                   ("status", Json.u64 1)]]
      = (dpop >>= fun _ => (pure (⟨1, bs⟩ : PocketSendResponse) :
          DecodeM PocketSendResponse)) [Json.obj []] :=
        DecodeM.bind_ok _
          (fun a => dpop >>= fun _ => (pure a : DecodeM PocketSendResponse)) hbody
    _ = .ok ⟨1, bs⟩ [] := rfl

/-- C9: the session state (consumer key, access token, pending authorization
code) is left unchanged by the add and get/filter operations — whichever
outcome (success, error, or panic) they produce. Only `get_auth_url` and
`authorize` assign to it. -/
theorem c9_session_state_frame :
    (∀ (st : PState) (url : String) (title tags tweet_id : Option String)
        (resp : HttpResponse), (Pocket.add st url title tags tweet_id resp).2 = st) ∧
    (∀ (st : PState) (r : PocketGetRequest) (resp : HttpResponse),
        (Pocket.get st r resp).2 = st) ∧
    (∀ st : PState, (Pocket.filter st).2 = st) := by
  refine ⟨?_, ?_, ?_⟩
  · intro st url title tags tweet_id resp
    unfold Pocket.add
    cases st.access_token with
    | none => rfl
    | some tok =>
      dsimp only
      cases PocketAddRequest.encode st.consumer_key tok url title tags tweet_id "" with
      | panic => rfl
      | ok out =>
        cases Pocket.request PocketAddResponse.decode resp with
        | ok r => rfl
        | err e => rfl
        | panic => rfl
  · intro st r resp
    unfold Pocket.get
    cases PocketGetRequest.encode st r "" with
    | panic => rfl
    | ok out =>
      cases Pocket.request PocketGetResponse.decode resp with
      | ok v => rfl
      | err e => rfl
      | panic => rfl
  · intro st
    rfl

/-- C10: with no access token in the session, `Pocket::add` panics (the
`unwrap` while building the request), and encoding a get request or a
send request panics (the `unwrap` in the `access_token` field emit);
`Pocket::authorize` before `get_auth_url` (no pending code) panics on its
`unwrap` of the code. -/
theorem c10_missing_credentials_panic :
    (∀ (st : PState) (url : String) (title tags tweet_id : Option String)
        (resp : HttpResponse), st.access_token = none →
        (Pocket.add st url title tags tweet_id resp).1 = .panic) ∧
    (∀ (st : PState) (r : PocketGetRequest) (out : String), st.access_token = none →
        PocketGetRequest.encode st r out = .panic) ∧
    (∀ (st : PState) (actions : List PAction) (out : String), st.access_token = none →
        PocketSendRequest.json_encode st actions out = .panic) ∧
    (∀ (st : PState) (resp : HttpResponse), st.code = none →
        (Pocket.authorize st resp).1 = .panic) := by
  refine ⟨?_, ?_, ?_, ?_⟩
  · intro st url title tags tweet_id resp h
    unfold Pocket.add
    rw [h]
  · intro st r out h
    unfold PocketGetRequest.encode
    rw [h]
    rfl
  · intro st actions out h
    unfold PocketSendRequest.json_encode
    rw [h]
    rfl
  · intro st resp h
    unfold Pocket.authorize
    rw [h]

/-- C10 witness: the theorem applied to a session holding neither an access
token nor a pending code. -/
theorem c10_witness :
    (st0.access_token = none ∧ st0.code = none) ∧
    (Pocket.add st0 "http://example.com" none none none ⟨none, none, Json.null⟩).1 = .panic ∧
    PocketGetRequest.encode st0 {} "" = .panic ∧
    PocketSendRequest.json_encode st0 [PAction.favorite ⟨1, none⟩] "" = .panic ∧
    (Pocket.authorize st0 ⟨none, none, Json.null⟩).1 = .panic :=
  ⟨⟨rfl, rfl⟩,
   c10_missing_credentials_panic.1 st0 "http://example.com" none none none
     ⟨none, none, Json.null⟩ rfl,
   c10_missing_credentials_panic.2.1 st0 {} "" rfl,
   c10_missing_credentials_panic.2.2.1 st0 [PAction.favorite ⟨1, none⟩] "" rfl,
   c10_missing_credentials_panic.2.2.2 st0 ⟨none, none, Json.null⟩ rfl⟩
